import Mathlib

/-!
Verification of the `loop_engine` package (src/loop_engine_lib/loop_engine/).

Shallow embedding of the state machine, event registry, event dispatch,
interrupt controller, task control, circuit-code IRQ template and engine
orchestrator, translated from `internal.py` and `loop_engine.py`.
Python closures holding mutable state are modelled by explicit state
passing; exceptions by `Except` / `Option` error components.
-/

/-! ## State machine (internal.py, `setup_state`, lines 177-258) -/

/-- The three state tokens `_LOAD`, `_ACTIVE`, `_TERMINATED` of `setup_state`. -/
inductive LoopState
  | LOAD
  | ACTIVE
  | TERMINATED
deriving DecidableEq, Repr

/-- The exception classes of `_StateError` (internal.py lines 199-206).
`TerminatedError` is declared as a subclass of `InvalidStateError`. -/
inductive StateErr
  | UnknownStateError
  | InvalidStateError
  | TerminatedError
deriving DecidableEq, Repr

/-- Whether an error is an instance of the `InvalidStateError` class;
`TerminatedError(InvalidStateError)` is a subclass, so it qualifies. -/
def isInvalidStateErr : StateErr → Bool
  | .InvalidStateError => true
  | .TerminatedError => true
  | .UnknownStateError => false

/-- `_require_state(expected)` with current state `cur` (internal.py lines
191-197).  `_validate_state_value` always passes here because `LoopState`
has exactly the three well-known tokens. -/
def require_state (expected cur : LoopState) : Except StateErr Unit :=
  if expected = cur then .ok ()
  else if cur = .TERMINATED then .error .TerminatedError
  else .error .InvalidStateError

/-- `maintain_state(state, fn, ...)` (internal.py lines 230-233): runs `fn`
only when the current state equals `expected`. -/
def maintain_state (expected cur : LoopState) (fn : Unit → α) : Except StateErr α :=
  match require_state expected cur with
  | .error e => .error e
  | .ok _ => .ok (fn ())

/-- `transit_state_with(to, fn, ...)` (internal.py lines 235-250).  Returns
the new current state together with `fn`'s result.  Faithful to the source:
the assignment `_state = to` sits inside the `if fn:` branch, so when no
`fn` is supplied the function returns `None` with the state unchanged. -/
def transit_state_with (cur toSt : LoopState) (fn : Option (Unit → α)) :
    Except StateErr (LoopState × Option α) :=
  if (cur = .LOAD ∧ toSt = .ACTIVE) ∨ (cur = .ACTIVE ∧ toSt = .TERMINATED) then
    match fn with
    | some f =>
      match maintain_state cur cur f with
      | .error e => .error e
      | .ok r => .ok (toSt, some r)
    | none => .ok (cur, none)
  else .error .InvalidStateError

/-- `transit_state(to)` (internal.py lines 252-254): `transit_state_with(to, None)`. -/
def transit_state (cur toSt : LoopState) : Except StateErr (LoopState × Option Unit) :=
  transit_state_with cur toSt none

/-- Decidable equality for `Except`, to evaluate embedded call results. -/
instance {ε α : Type} [DecidableEq ε] [DecidableEq α] : DecidableEq (Except ε α) := fun a b =>
  match a, b with
  | .ok x, .ok y =>
    if h : x = y then .isTrue (congrArg Except.ok h)
    else .isFalse (fun hc => h (Except.ok.inj hc))
  | .error x, .error y =>
    if h : x = y then .isTrue (congrArg Except.error h)
    else .isFalse (fun hc => h (Except.error.inj hc))
  | .ok _, .error _ => .isFalse (fun hc => Except.noConfusion hc)
  | .error _, .ok _ => .isFalse (fun hc => Except.noConfusion hc)

/-! ## Events (internal.py, `setup_loop_event`, lines 69-125) -/

namespace LoopEvent

def START : String := "on_start"
def PAUSE : String := "on_pause"
def RESUME : String := "on_resume"
def STOP_NORMALLY : String := "on_end"
def STOP_CANCELED : String := "on_stop"
def STOP_HANDLER_ERROR : String := "on_handler_exception"
def STOP_CIRCUIT_ERROR : String := "on_circuit_exception"
def CLEANUP : String := "on_closed"
def LOOP_RESULT : String := "on_result"

/-- `_ALL_EVENTS` (internal.py lines 83-87). -/
def ALL_EVENTS : List String :=
  [START, PAUSE, RESUME, STOP_NORMALLY,
   STOP_CANCELED, STOP_HANDLER_ERROR, STOP_CIRCUIT_ERROR,
   CLEANUP, LOOP_RESULT]

end LoopEvent

/-- `is_valid_event(name)` (internal.py lines 118-120). -/
def is_valid_event (name : String) : Bool := LoopEvent.ALL_EVENTS.contains name

/-! ## Event-handler registry (internal.py, `setup_event_handler_registry`,
lines 295-315).  The Python `dict` is modelled as an insertion-ordered
association list; assignment overwrites in place or appends. -/

/-- `d.get(k, None)` on a Python dict. -/
def dictGet (m : List (String × H)) (k : String) : Option H :=
  match m with
  | [] => none
  | (k1, v) :: rest => if k1 = k then some v else dictGet rest k

/-- `d[k] = v` on a Python dict: overwrite in place, else append. -/
def dictSet (m : List (String × H)) (k : String) (v : H) : List (String × H) :=
  match m with
  | [] => [(k, v)]
  | (k1, v1) :: rest => if k1 = k then (k, v) :: rest else (k1, v1) :: dictSet rest k v

/-- The errors `set_event_handler` can raise: `ValueError` for an undefined
event name, or whatever `maintain_state` raises. -/
inductive RegError
  | valueError
  | stateErr (e : StateErr)
deriving DecidableEq, Repr

/-- `set_event_handler(event, handler)` (internal.py lines 302-307), with
the current machine state and registry passed explicitly.  Returns the
resulting registry together with the raised error, if any. -/
def set_event_handler (cur : LoopState) (reg : List (String × H))
    (event : String) (handler : H) : List (String × H) × Option RegError :=
  if is_valid_event event = false then (reg, some .valueError)
  else
    match maintain_state .LOAD cur (fun _ => dictSet reg event handler) with
    | .error e => (reg, some (.stateErr e))
    | .ok newReg => (newReg, none)

/-! ## Step slots (internal.py, `setup_step_slot`, lines 725-754) -/

/-- A `StepSlot`: `prev_result = none` models the `_UNSET` marker object. -/
structure StepSlot (α : Type) where
  prev_proc : String
  prev_result : Option α
deriving DecidableEq, Repr

/-- The freshly constructed slot: `_prev_proc = '<unset>'`, `_prev_result = _UNSET`. -/
def initSlot : StepSlot α := { prev_proc := "<unset>", prev_result := none }

/-! ## Event dispatch (internal.py, `process_event`, lines 1179-1208) -/

/-- `EventReactorError(proc_name, e)` / `EventHandlerError(proc_name, e)`
(loop_engine.py lines 437-446), carrying the event name and the cause. -/
inductive EventError (ε : Type)
  | eventReactorError (proc_name : String) (orig : ε)
  | eventHandlerError (proc_name : String) (orig : ε)
deriving DecidableEq, Repr

/-- `process_event(event)` (internal.py lines 1179-1208).  The registry of
handlers, the event reactor and each handler's behaviour (its outcome on
the event context) are passed explicitly; the synchronous and awaitable
branches of the source collapse to one outcome.  Returns the updated event
`StepSlot` and the raised error, if any. -/
def process_event (handlers : List (String × H)) (reactor : String → Except ε Unit)
    (handlerRun : H → Except ε α) (slot : StepSlot α) (event : String) :
    StepSlot α × Option (EventError ε) :=
  match dictGet handlers event with
  | none => (slot, none)
  | some h =>
    match reactor event with
    | .error e => (slot, some (.eventReactorError event e))
    | .ok _ =>
      match handlerRun h with
      | .error e => (slot, some (.eventHandlerError event e))
      | .ok r => ({ prev_proc := event, prev_result := some r }, none)

/-! ## Interrupt controller (internal.py, `setup_loop_interrupt`, lines 842-895) -/

/-- The run-mode tokens `_RUNNING`, `_PAUSE`. -/
inductive RunMode
  | RUNNING
  | PAUSE
deriving DecidableEq, Repr

/-- The closure state of `setup_loop_interrupt`: mode token, the
`asyncio.Event` readiness flag (`readyFlag = true` iff the event is set),
and the two intent booleans. -/
structure IrqState where
  mode : RunMode
  readyFlag : Bool
  pause_requested : Bool
  resume_event_scheduled : Bool
deriving DecidableEq, Repr

/-- The initial controller state: mode `_RUNNING`, a fresh (unset)
`asyncio.Event()`, both flags `False` (internal.py lines 844-850). -/
def initIrq : IrqState :=
  { mode := .RUNNING, readyFlag := false
    pause_requested := false, resume_event_scheduled := false }

/-- `request_pause()` (internal.py lines 876-879). -/
def irq_request_pause (s : IrqState) : IrqState := { s with pause_requested := true }

/-- `resume()` (internal.py lines 880-884): sets the flag and sets the event. -/
def irq_resume (s : IrqState) : IrqState :=
  { s with resume_event_scheduled := true, readyFlag := true }

/-- `consume_pause_request(event_processor)` (internal.py lines 863-869):
clears the flag, fires the PAUSE event, clears the readiness event, and
switches the mode to PAUSE.  The fired event names are returned. -/
def irq_consume_pause_request (s : IrqState) : List String × IrqState :=
  ([LoopEvent.PAUSE],
   { s with pause_requested := false, readyFlag := false, mode := .PAUSE })

/-- `perform_resume_event(event_processor)` (internal.py lines 870-875). -/
def irq_perform_resume_event (s : IrqState) : List String × IrqState :=
  ([LoopEvent.RESUME],
   { s with resume_event_scheduled := false, mode := .RUNNING })

/-- `wait_resume()` (internal.py lines 885-887) awaits `_event.wait()`,
which completes exactly when the `asyncio.Event` flag is set. -/
def wait_resume_completes (s : IrqState) : Bool := s.readyFlag

/-- The controller's mutating operations, for reasoning about sequences of
calls made before and between safe points. -/
inductive IrqOp
  | requestPause
  | resumeOp
  | consumePause
  | performResume
deriving DecidableEq, Repr

def irqApply (s : IrqState) : IrqOp → IrqState
  | .requestPause => irq_request_pause s
  | .resumeOp => irq_resume s
  | .consumePause => (irq_consume_pause_request s).2
  | .performResume => (irq_perform_resume_event s).2

def irqApplyAll (s : IrqState) : List IrqOp → IrqState
  | [] => s
  | op :: rest => irqApplyAll (irqApply s op) rest

/-! ## Task control (internal.py, `setup_task_control`, lines 932-966) and
the handle's control surface (loop_engine.py lines 820-831) -/

/-- `TaskControl.start(fn, ...)` (internal.py lines 941-953): wraps task
creation in `transit_state_with(ACTIVE, create_task)`; task creation
itself is abstracted to a unit action. -/
def task_control_start (cur : LoopState) : Except StateErr (LoopState × Option Unit) :=
  transit_state_with cur .ACTIVE (some (fun _ => ()))

/-- `TaskControl.stop()` (internal.py lines 959-964): cancellation wrapped
in `maintain_state(ACTIVE, cancel_task)`; cancellation abstracted to unit. -/
def task_control_stop (cur : LoopState) : Except StateErr Unit :=
  maintain_state .ACTIVE cur (fun _ => ())

/-- `LoopEngineHandle.pause` (loop_engine.py lines 826-828) returns
`_irq.request_pause` directly: the source consults no machine state, so the
`cur` argument is carried only to record that the call succeeds (error
component `none`) in every state. -/
def handle_pause (_cur : LoopState) (irq : IrqState) : IrqState × Option StateErr :=
  (irq_request_pause irq, none)

/-- `LoopEngineHandle.resume` (loop_engine.py lines 829-831) returns
`_irq.resume` directly, likewise with no state guard. -/
def handle_resume (_cur : LoopState) (irq : IrqState) : IrqState × Option StateErr :=
  (irq_resume irq, none)

/-! ## The generated safe point (internal.py, `_IRQ_TEMPLATE`, lines 1024-1030) -/

/-- The method names the `LoopInterrupt` interface defines (internal.py
lines 802-840): these are the attributes available on the `irq` object the
generated circuit receives. -/
def loopInterruptMethods : List String :=
  ["consume_pause_request", "perform_resume_event",
   "request_pause", "resume", "wait_resume"]

/-- The attribute the pause branch of `_IRQ_TEMPLATE` looks up on `irq`. -/
def irqPauseCallName : String := "consume_pause_result"

/-- Line 2 of `_IRQ_TEMPLATE` (internal.py line 1026), verbatim. -/
def irqPauseLine : String := "{indent}    await irq.consume_pause_result(ev_proc)"

/-- `_IRQ_TEMPLATE` (internal.py lines 1024-1030), verbatim. -/
def IRQ_TEMPLATE : List String :=
  ["{indent}if irq.pause_requested:",
   irqPauseLine,
   "{indent}if irq.resume_event_scheduled:",
   "{indent}    await irq.perform_resume_event(ev_proc)",
   "{indent}await irq.wait_resume()"]

/-- The resume half of the safe point: fires RESUME via
`perform_resume_event` when `resume_event_scheduled` is set. -/
def resumeCheck (fired : List String) (s : IrqState) :
    Except String (List String × IrqState) :=
  if s.resume_event_scheduled then
    let (f2, s2) := irq_perform_resume_event s
    .ok (fired ++ f2, s2)
  else .ok (fired, s)

/-- One execution of the safe point emitted by `_IRQ_TEMPLATE` (event
processing assumed to succeed; `wait_resume` modelled separately).  The
pause branch dispatches the attribute named `irqPauseCallName` on the
`irq` object: when that name is not among `loopInterruptMethods`, Python
raises `AttributeError`, modelled as `.error` carrying the name. -/
def safePoint (s : IrqState) : Except String (List String × IrqState) :=
  if s.pause_requested then
    if loopInterruptMethods.contains irqPauseCallName then
      let (fired, s1) := irq_consume_pause_request s
      resumeCheck fired s1
    else .error irqPauseCallName
  else resumeCheck [] s

/-- The safe point as the `LoopInterrupt` interface documents it: the pause
branch awaits `consume_pause_request`.  Used to state what the template
would do were its attribute lookup valid. -/
def safePointIntended (s : IrqState) : List String × IrqState :=
  if s.pause_requested then
    let (fired, s1) := irq_consume_pause_request s
    match resumeCheck fired s1 with
    | .ok r => r
    | .error _ => (fired, s1)
  else
    match resumeCheck [] s with
    | .ok r => r
    | .error _ => ([], s)

/-! ## Engine orchestrator (loop_engine.py, `_loop_engine`, lines 670-721) -/

/-- How the circuit invocation turns out: clean exit, an ordinary exception
(wrapped as `CircuitError` at loop_engine.py lines 681-689), or an
`asyncio.CancelledError` (a `BaseException`, so it is not wrapped and is
caught by the `except asyncio.CancelledError` clause at line 691). -/
inductive CircuitOutcome (ε : Type)
  | ok
  | raises (e : ε)
  | cancelled
deriving DecidableEq, Repr

/-- The classified exceptions that can propagate out of the run:
`CircuitError(e)` (loop_engine.py lines 448-451), one of the two event
errors raised by `process_event`, or an unclassified exception that falls
through to the `except Exception` clause (loop_engine.py lines 708-711) —
such as a failure of the user-settable event-reactor factory invoked by
`control.setup_event_context()` at line 677. -/
inductive EngineError (ε : Type)
  | circuitError (orig : ε)
  | fromEvent (e : EventError ε)
  | internalError (orig : ε)
deriving DecidableEq, Repr

/-- The value held by `ResultRecorder.loop_result`: the `_PENDING_RESULT`
sentinel, the `_NO_RESULT` sentinel (defined at internal.py line 605), the
event StepSlot's `_UNSET` marker copied over, or a real value. -/
inductive LoopResultVal (α : Type)
  | pendingResult
  | noResult
  | unsetMarker
  | value (a : α)
deriving DecidableEq, Repr

/-- `res.set_loop_result(control.event.prev_result)` (loop_engine.py line
697): copy the event StepSlot's content. -/
def slotToVal (slot : StepSlot α) : LoopResultVal α :=
  match slot.prev_result with
  | none => .unsetMarker
  | some a => .value a

/-- The inputs a run of `_loop_engine` depends on: the frozen handler
registry, the event reactor's behaviour, each handler's behaviour, and the
circuit's outcome. -/
structure EngineEnv (H ε α : Type) where
  handlers : List (String × H)
  reactor : String → Except ε Unit
  handlerRun : H → Except ε α
  circuit : CircuitOutcome ε

/-- Everything observable after a run of `_loop_engine`: the sequence of
`process_event` calls made, the `ResultRecorder` fields, the exception that
propagates to the driver, the final event StepSlot, the errors raised by
the CLEANUP and LOOP_RESULT processing inside the `finally` region, and
the machine state after the closing `transit_state(TERMINATED)`. -/
structure RunResult (ε α : Type) where
  trace : List String
  loop_result : LoopResultVal α
  circuit_error : Option ε
  event_reactor_error : Option (EventError ε)
  handler_error : Option (EventError ε)
  internal_error : Option ε
  raised : Option (EngineError ε)
  last_process : String
  finalSlot : StepSlot α
  cleanupErr : Option (EventError ε)
  resultErr : Option (EventError ε)
  finalMachineState : LoopState
deriving DecidableEq, Repr

/-- Outcome of the inner `try` body (loop_engine.py lines 678-690) before
the `except asyncio.CancelledError` clause. -/
inductive InnerOutcome (ε : Type)
  | ok
  | cancelled
  | err (e : EngineError ε)
deriving DecidableEq, Repr

/-- The inner `try` body: `process_event(START)`, the circuit invocation,
then `process_event(STOP_NORMALLY)` (loop_engine.py lines 678-690).
Returns the trace of `process_event` calls, the event slot and the outcome. -/
def innerTry (env : EngineEnv H ε α) : List String × StepSlot α × InnerOutcome ε :=
  let ps := process_event env.handlers env.reactor env.handlerRun initSlot LoopEvent.START
  match ps.2 with
  | some e1 => ([LoopEvent.START], ps.1, .err (.fromEvent e1))
  | none =>
    match env.circuit with
    | .raises ex => ([LoopEvent.START], ps.1, .err (.circuitError ex))
    | .cancelled => ([LoopEvent.START], ps.1, .cancelled)
    | .ok =>
      let pn := process_event env.handlers env.reactor env.handlerRun ps.1
        LoopEvent.STOP_NORMALLY
      match pn.2 with
      | some e2 =>
        ([LoopEvent.START, LoopEvent.STOP_NORMALLY], pn.1, .err (.fromEvent e2))
      | none =>
        ([LoopEvent.START, LoopEvent.STOP_NORMALLY], pn.1, .ok)

/-- The inner `try` together with its `except asyncio.CancelledError`
clause, which processes STOP_CANCELED and swallows the cancellation
(loop_engine.py lines 691-693).  The third component is the exception
still pending when control enters the `finally` region. -/
def innerRun (env : EngineEnv H ε α) :
    List String × StepSlot α × Option (EngineError ε) :=
  let it := innerTry env
  match it.2.2 with
  | .ok => (it.1, it.2.1, none)
  | .err e => (it.1, it.2.1, some e)
  | .cancelled =>
    let pc := process_event env.handlers env.reactor env.handlerRun it.2.1
      LoopEvent.STOP_CANCELED
    match pc.2 with
    | some e3 => (it.1 ++ [LoopEvent.STOP_CANCELED], pc.1, some (.fromEvent e3))
    | none => (it.1 ++ [LoopEvent.STOP_CANCELED], pc.1, none)

/-- Output of the `finally` region (loop_engine.py lines 694-697): the full
trace, the final event slot, the pending exception after the region (a
failure inside `finally` replaces the incoming one, per Python semantics),
the recorded `loop_result`, and the CLEANUP / LOOP_RESULT errors. -/
structure FinalizeOut (ε α : Type) where
  trace : List String
  slot : StepSlot α
  pending : Option (EngineError ε)
  loopRes : LoopResultVal α
  cleanupErr : Option (EventError ε)
  resultErr : Option (EventError ε)
deriving DecidableEq, Repr

/-- The `finally` region: `process_event(CLEANUP)`, then
`process_event(LOOP_RESULT)`, then `res.set_loop_result(...)`.  There is no
inner `try` around these calls, so a failure in CLEANUP skips LOOP_RESULT
and the result write, and a failure in either replaces the pending
exception. -/
def finalizeRun (env : EngineEnv H ε α)
    (tr : List String) (slot : StepSlot α) (pending : Option (EngineError ε)) :
    FinalizeOut ε α :=
  let pc := process_event env.handlers env.reactor env.handlerRun slot LoopEvent.CLEANUP
  match pc.2 with
  | some eC =>
    { trace := tr ++ [LoopEvent.CLEANUP], slot := pc.1,
      pending := some (.fromEvent eC), loopRes := .pendingResult,
      cleanupErr := some eC, resultErr := none }
  | none =>
    let pr := process_event env.handlers env.reactor env.handlerRun pc.1
      LoopEvent.LOOP_RESULT
    match pr.2 with
    | some eR =>
      { trace := tr ++ [LoopEvent.CLEANUP, LoopEvent.LOOP_RESULT], slot := pr.1,
        pending := some (.fromEvent eR), loopRes := .pendingResult,
        cleanupErr := none, resultErr := some eR }
    | none =>
      { trace := tr ++ [LoopEvent.CLEANUP, LoopEvent.LOOP_RESULT], slot := pr.1,
        pending := pending, loopRes := slotToVal pr.1,
        cleanupErr := none, resultErr := none }

/-- The classification `except` clauses (loop_engine.py lines 698-711):
exactly one `ResultRecorder` error slot receives the propagating exception.
Returns (circuit_error, event_reactor_error, handler_error); an
unclassified exception matches none of the three and is recorded by the
`except Exception` clause into `internal_error` instead. -/
def classifyErr (e : EngineError ε) :
    Option ε × Option (EventError ε) × Option (EventError ε) :=
  match e with
  | .circuitError ex => (some ex, none, none)
  | .fromEvent (.eventReactorError n c) => (none, some (.eventReactorError n c), none)
  | .fromEvent (.eventHandlerError n c) => (none, none, some (.eventHandlerError n c))
  | .internalError _ => (none, none, none)

/-- The machine state after the closing `state.transit_state(TERMINATED)`
(loop_engine.py line 714), starting from the ACTIVE state `start()` put the
machine in. -/
def engineFinalMachineState : LoopState :=
  match transit_state .ACTIVE .TERMINATED with
  | .ok (s, _) => s
  | .error _ => .ACTIVE

/-- A run of `_loop_engine` from the inner `try` onward (loop_engine.py
lines 678-721), with the function's formal parameters bound as declared.
The steps preceding the inner `try` — in particular
`control.setup_event_context()` at line 677, whose user-settable factory
may itself raise — are added by `run_loop_engine_full`. -/
def run_loop_engine (env : EngineEnv H ε α) : RunResult ε α :=
  let ir := innerRun env
  let fin := finalizeRun env ir.1 ir.2.1 ir.2.2
  let cls := match fin.pending with
    | none => ((none : Option ε), (none : Option (EventError ε)),
               (none : Option (EventError ε)))
    | some e => classifyErr e
  { trace := fin.trace
    loop_result := fin.loopRes
    circuit_error := cls.1
    event_reactor_error := cls.2.1
    handler_error := cls.2.2
    internal_error := none
    raised := fin.pending
    last_process := fin.slot.prev_proc
    finalSlot := fin.slot
    cleanupErr := fin.cleanupErr
    resultErr := fin.resultErr
    finalMachineState := engineFinalMachineState }

/-- One full run of `_loop_engine` (loop_engine.py lines 670-721),
including the steps before the inner `try`: `setupEventContext` is the
outcome of `control.setup_event_context()` at line 677, which invokes the
driver-settable event-reactor factory.  That call sits outside the inner
`try`, so if it raises, control jumps straight to the outer `except`
clauses: the `finally` region at line 694 never runs — no `process_event`
call is made at all — the unclassified exception is recorded as
`internal_error` and re-raised, and only the outer `finally` (last-process
write and `transit_state(TERMINATED)`) executes. -/
def run_loop_engine_full (setupEventContext : Except ε Unit)
    (env : EngineEnv H ε α) : RunResult ε α :=
  match setupEventContext with
  | .error e =>
    { trace := []
      loop_result := .pendingResult
      circuit_error := none
      event_reactor_error := none
      handler_error := none
      internal_error := some e
      raised := some (.internalError e)
      last_process := (initSlot (α := α)).prev_proc
      finalSlot := initSlot
      cleanupErr := none
      resultErr := none
      finalMachineState := engineFinalMachineState }
  | .ok _ => run_loop_engine env

/-! ## Concrete environments used to evaluate the orchestrator -/

/-- A run with no handlers registered and a clean circuit exit. -/
def envPlain : EngineEnv Unit Unit Nat :=
  { handlers := [], reactor := fun _ => .ok (),
    handlerRun := fun _ => .ok 0, circuit := .ok }

/-- A run whose only handler is a CLEANUP handler that raises. -/
def envCleanupFails : EngineEnv Unit Unit Nat :=
  { handlers := [(LoopEvent.CLEANUP, ())], reactor := fun _ => .ok (),
    handlerRun := fun _ => .error (), circuit := .ok }

/-- A run whose only handler is a LOOP_RESULT handler that raises. -/
def envResultFails : EngineEnv Unit Unit Nat :=
  { handlers := [(LoopEvent.LOOP_RESULT, ())], reactor := fun _ => .ok (),
    handlerRun := fun _ => .error (), circuit := .ok }

/-- A run whose only handler is a LOOP_RESULT handler returning 42. -/
def envResultOk : EngineEnv Unit Unit Nat :=
  { handlers := [(LoopEvent.LOOP_RESULT, ())], reactor := fun _ => .ok (),
    handlerRun := fun _ => .ok 42, circuit := .ok }

/-- A run where the circuit raises and the CLEANUP handler also raises. -/
def envCircuitAndCleanupFail : EngineEnv Unit Unit Nat :=
  { handlers := [(LoopEvent.CLEANUP, ())], reactor := fun _ => .ok (),
    handlerRun := fun _ => .error (), circuit := .raises () }

/-! ## Helper lemmas -/

/-- The readiness flag can only be set by `resume()`: over any sequence of
controller operations not containing `resume`, a clear flag stays clear. -/
theorem irq_readyFlag_stays_false (ops : List IrqOp) :
    ∀ s : IrqState, IrqOp.resumeOp ∉ ops → s.readyFlag = false →
      (irqApplyAll s ops).readyFlag = false := by
  induction ops with
  | nil => intro s _ hs; simpa [irqApplyAll] using hs
  | cons op rest ih =>
    intro s hmem hs
    have hop : op ≠ IrqOp.resumeOp := by
      intro h; exact hmem (by simp [h])
    have hrest : IrqOp.resumeOp ∉ rest := fun h => hmem (List.mem_cons_of_mem _ h)
    have hstep : (irqApply s op).readyFlag = false := by
      cases op with
      | resumeOp => exact absurd rfl hop
      | requestPause => simpa [irqApply, irq_request_pause] using hs
      | consumePause => simp [irqApply, irq_consume_pause_request]
      | performResume => simpa [irqApply, irq_perform_resume_event] using hs
    simpa [irqApplyAll] using ih (irqApply s op) hrest hstep

/-- The trace of the inner `try` body is `[START]` or `[START,
STOP_NORMALLY]`, and the cancelled outcome only arises with `[START]`. -/
theorem innerTry_shape {H ε α : Type} (env : EngineEnv H ε α) :
    ((innerTry env).1 = [LoopEvent.START] ∨
     (innerTry env).1 = [LoopEvent.START, LoopEvent.STOP_NORMALLY]) ∧
    ((innerTry env).2.2 = InnerOutcome.cancelled → (innerTry env).1 = [LoopEvent.START]) := by
  unfold innerTry
  cases h1 : (process_event env.handlers env.reactor env.handlerRun initSlot
      LoopEvent.START).2 with
  | some e1 => simp [h1]
  | none =>
    cases hc : env.circuit with
    | raises ex => simp [h1, hc]
    | cancelled => simp [h1, hc]
    | ok =>
      cases h2 : (process_event env.handlers env.reactor env.handlerRun
          (process_event env.handlers env.reactor env.handlerRun initSlot
            LoopEvent.START).1 LoopEvent.STOP_NORMALLY).2 with
      | some e2 => simp [h1, hc, h2]
      | none => simp [h1, hc, h2]

/-- The trace at the entry of the `finally` region is one of three fixed
lists, none of which mentions CLEANUP or LOOP_RESULT. -/
theorem innerRun_trace_cases {H ε α : Type} (env : EngineEnv H ε α) :
    (innerRun env).1 = [LoopEvent.START] ∨
    (innerRun env).1 = [LoopEvent.START, LoopEvent.STOP_NORMALLY] ∨
    (innerRun env).1 = [LoopEvent.START, LoopEvent.STOP_CANCELED] := by
  have hshape := innerTry_shape env
  unfold innerRun
  cases ho : (innerTry env).2.2 with
  | ok => rcases hshape.1 with h | h <;> simp [ho, h]
  | err e => rcases hshape.1 with h | h <;> simp [ho, h]
  | cancelled =>
    have h1 : (innerTry env).1 = [LoopEvent.START] := hshape.2 ho
    cases h3 : (process_event env.handlers env.reactor env.handlerRun
        (innerTry env).2.1 LoopEvent.STOP_CANCELED).2 with
    | some e3 => simp [ho, h1, h3]
    | none => simp [ho, h1, h3]

/-! ## Claim theorems -/

/-- C1: `transit_state(to)` — `transit_state_with(to, None)` — validates
the edge but does not advance the state: on both legal edges it returns
`None` with the current state unchanged, so the orchestrator's closing
`transit_state(TERMINATED)` leaves the machine in ACTIVE, not TERMINATED.
Illegal edges do raise with the state unchanged. -/
theorem c1_transit_state_does_not_advance :
    transit_state .ACTIVE .TERMINATED = Except.ok (LoopState.ACTIVE, none) ∧
    transit_state .LOAD .ACTIVE = Except.ok (LoopState.LOAD, none) ∧
    transit_state .LOAD .TERMINATED = Except.error StateErr.InvalidStateError ∧
    engineFinalMachineState = LoopState.ACTIVE ∧
    LoopState.ACTIVE ≠ LoopState.TERMINATED := by
  decide

/-- C4: with a pause requested and a resume scheduled, the generated safe
point (line 2 of `_IRQ_TEMPLATE`) dispatches the attribute
`consume_pause_result`, which the `LoopInterrupt` interface does not
define, so the safe point raises `AttributeError` and fires no PAUSE or
RESUME event at all. -/
theorem c4_safe_point_attribute_error :
    irqPauseLine = "{indent}    await irq." ++ irqPauseCallName ++ "(ev_proc)" ∧
    IRQ_TEMPLATE[1]? = some irqPauseLine ∧
    loopInterruptMethods.contains irqPauseCallName = false ∧
    (irq_resume (irq_request_pause initIrq)).pause_requested = true ∧
    (irq_resume (irq_request_pause initIrq)).resume_event_scheduled = true ∧
    safePoint (irq_resume (irq_request_pause initIrq)) = Except.error irqPauseCallName := by
  decide

/-- Had the safe point dispatched `consume_pause_request` as the
`LoopInterrupt` interface documents, a pending pause followed by a pending
resume would fire exactly PAUSE then RESUME at the safe point. -/
theorem safe_point_as_documented_fires_pause_then_resume :
    (safePointIntended (irq_resume (irq_request_pause initIrq))).1
      = [LoopEvent.PAUSE, LoopEvent.RESUME] := by
  decide

/-- C6: for a defined event name, registering a handler in ACTIVE raises
`InvalidStateError`, in TERMINATED raises `TerminatedError` (an instance of
`InvalidStateError` by subclassing) leaving the registry unchanged, and in
LOAD stores the handler in the registry. -/
theorem c6_set_event_handler_gated_to_load {H : Type}
    (reg : List (String × H)) (event : String) (handler : H)
    (hvalid : is_valid_event event = true) :
    set_event_handler .ACTIVE reg event handler
      = (reg, some (.stateErr .InvalidStateError)) ∧
    set_event_handler .TERMINATED reg event handler
      = (reg, some (.stateErr .TerminatedError)) ∧
    isInvalidStateErr StateErr.TerminatedError = true ∧
    set_event_handler .LOAD reg event handler = (dictSet reg event handler, none) := by
  refine ⟨?_, ?_, rfl, ?_⟩ <;>
    simp [set_event_handler, maintain_state, require_state, hvalid]

/-- Witness for C6 at the event `on_start` with a one-element registry. -/
theorem c6_set_event_handler_gated_to_load_witness :
    set_event_handler .ACTIVE ([] : List (String × Nat)) LoopEvent.START 5
      = ([], some (.stateErr .InvalidStateError)) ∧
    set_event_handler .TERMINATED ([] : List (String × Nat)) LoopEvent.START 5
      = ([], some (.stateErr .TerminatedError)) ∧
    isInvalidStateErr StateErr.TerminatedError = true ∧
    set_event_handler .LOAD ([] : List (String × Nat)) LoopEvent.START 5
      = (dictSet [] LoopEvent.START 5, none) :=
  c6_set_event_handler_gated_to_load [] LoopEvent.START 5 (by decide)

/-- C10: for a name outside the nine defined events, `set_event_handler`
raises `ValueError` in every state, before the LOAD gate is consulted, and
the registry is unchanged. -/
theorem c10_invalid_event_name_value_error {H : Type}
    (cur : LoopState) (reg : List (String × H)) (name : String) (handler : H)
    (hinvalid : is_valid_event name = false) :
    set_event_handler cur reg name handler = (reg, some RegError.valueError) := by
  simp [set_event_handler, hinvalid]

/-- Witness for C10 at the undefined name `bogus` in state TERMINATED. -/
theorem c10_invalid_event_name_value_error_witness :
    set_event_handler .TERMINATED [(LoopEvent.START, 1)] "bogus" 2
      = ([(LoopEvent.START, 1)], some RegError.valueError) :=
  c10_invalid_event_name_value_error .TERMINATED [(LoopEvent.START, 1)] "bogus" 2
    (by decide)

/-- C5: for a defined event, `process_event` with no registered handler
returns immediately with no error, the reactor uninvoked (the result is
the same for every handler behaviour); with a registered handler it invokes
the reactor first — a reactor failure is wrapped as `EventReactorError`
and the outcome is independent of the handler's behaviour — then the
handler, whose failure is wrapped as `EventHandlerError`; on success the
pair (event, result) is recorded into the event StepSlot. -/
theorem c5_process_event_protocol {H ε α : Type}
    (handlers : List (String × H)) (reactor : String → Except ε Unit)
    (handlerRun : H → Except ε α) (slot : StepSlot α) (event : String)
    (_hvalid : is_valid_event event = true) :
    (dictGet handlers event = none →
      process_event handlers reactor handlerRun slot event = (slot, none)) ∧
    (∀ h e, dictGet handlers event = some h → reactor event = .error e →
      process_event handlers reactor handlerRun slot event
        = (slot, some (.eventReactorError event e))) ∧
    (∀ h e, dictGet handlers event = some h → reactor event = .ok () →
      handlerRun h = .error e →
      process_event handlers reactor handlerRun slot event
        = (slot, some (.eventHandlerError event e))) ∧
    (∀ h r, dictGet handlers event = some h → reactor event = .ok () →
      handlerRun h = .ok r →
      process_event handlers reactor handlerRun slot event
        = ({ prev_proc := event, prev_result := some r }, none)) := by
  refine ⟨?_, ?_, ?_, ?_⟩
  · intro hno; simp [process_event, hno]
  · intro h e hh hr; simp [process_event, hh, hr]
  · intro h e hh hr hf; simp [process_event, hh, hr, hf]
  · intro h r hh hr hf; simp [process_event, hh, hr, hf]

/-- Witness for C5: a handler registered for `on_start` that returns 7. -/
theorem c5_process_event_protocol_witness :
    process_event [(LoopEvent.START, ())]
        (fun _ => (Except.ok () : Except Unit Unit))
        (fun _ => (Except.ok 7 : Except Unit Nat)) initSlot LoopEvent.START
      = ({ prev_proc := LoopEvent.START, prev_result := some 7 }, none) :=
  (c5_process_event_protocol [(LoopEvent.START, ())]
    (fun _ => (Except.ok () : Except Unit Unit))
    (fun _ => (Except.ok 7 : Except Unit Nat)) initSlot LoopEvent.START
    (by decide)).2.2.2 () 7 (by decide) rfl rfl

/-- C9: in the controller's initial state the mode is RUNNING and no pause
or resume intent is pending, yet the readiness signal is unset, and it
stays unset across any sequence of controller operations that does not
include `resume()` — so a `wait_resume()` call made before the first
`resume()` does not return. -/
theorem c9_wait_resume_blocks_before_first_resume (ops : List IrqOp)
    (hno : IrqOp.resumeOp ∉ ops) :
    initIrq.mode = RunMode.RUNNING ∧
    initIrq.pause_requested = false ∧
    initIrq.resume_event_scheduled = false ∧
    wait_resume_completes initIrq = false ∧
    wait_resume_completes (irqApplyAll initIrq ops) = false :=
  ⟨rfl, rfl, rfl, rfl, irq_readyFlag_stays_false ops initIrq hno rfl⟩

/-- Witness for C9: a pause requested and consumed, but never a resume. -/
theorem c9_wait_resume_blocks_before_first_resume_witness :
    initIrq.mode = RunMode.RUNNING ∧
    initIrq.pause_requested = false ∧
    initIrq.resume_event_scheduled = false ∧
    wait_resume_completes initIrq = false ∧
    wait_resume_completes
      (irqApplyAll initIrq [IrqOp.requestPause, IrqOp.consumePause]) = false :=
  c9_wait_resume_blocks_before_first_resume
    [IrqOp.requestPause, IrqOp.consumePause] (by decide)

/-- C8 counterexample: `pause()` invoked in LOAD raises nothing and takes
effect (sets the pause-requested flag), `resume()` invoked in TERMINATED
raises nothing and takes effect, and `start()` invoked in ACTIVE — the one
state the claim says makes it valid — raises `InvalidStateError`. -/
theorem c8_counterexample_controls_not_gated_to_active :
    (handle_pause .LOAD initIrq).2 = none ∧
    (handle_pause .LOAD initIrq).1.pause_requested = true ∧
    (handle_resume .TERMINATED initIrq).2 = none ∧
    (handle_resume .TERMINATED initIrq).1.resume_event_scheduled = true ∧
    task_control_start .ACTIVE = Except.error StateErr.InvalidStateError := by
  decide

/-- C8 amended: `stop()` is valid only in ACTIVE (InvalidStateError in
LOAD, TerminatedError in TERMINATED); `start()` is valid only in LOAD,
where it performs the LOAD→ACTIVE transition, and raises InvalidStateError
in ACTIVE and TERMINATED; `pause()` and `resume()` consult no state at all:
in every state they set their flag and raise nothing. -/
theorem c8_amended_control_state_gating (cur : LoopState) (irq : IrqState) :
    task_control_stop .ACTIVE = Except.ok () ∧
    task_control_stop .LOAD = Except.error StateErr.InvalidStateError ∧
    task_control_stop .TERMINATED = Except.error StateErr.TerminatedError ∧
    task_control_start .LOAD = Except.ok (LoopState.ACTIVE, some ()) ∧
    task_control_start .ACTIVE = Except.error StateErr.InvalidStateError ∧
    task_control_start .TERMINATED = Except.error StateErr.InvalidStateError ∧
    handle_pause cur irq = (irq_request_pause irq, none) ∧
    handle_resume cur irq = (irq_resume irq, none) ∧
    (handle_pause cur irq).1.pause_requested = true ∧
    (handle_resume cur irq).1.resume_event_scheduled = true := by
  refine ⟨by decide, by decide, by decide, by decide, by decide, by decide,
    rfl, rfl, ?_, ?_⟩ <;> simp [handle_pause, handle_resume, irq_request_pause, irq_resume]

/-- C3 counterexample: in a run whose only handler is a failing CLEANUP
handler, `process_event(CLEANUP)` raises inside the `finally` region and
`process_event(LOOP_RESULT)` is never called: CLEANUP executes once, but
LOOP_RESULT executes zero times. -/
theorem c3_counterexample_cleanup_failure_skips_loop_result :
    (run_loop_engine envCleanupFails).trace
      = [LoopEvent.START, LoopEvent.STOP_NORMALLY, LoopEvent.CLEANUP] ∧
    (run_loop_engine envCleanupFails).trace.count LoopEvent.CLEANUP = 1 ∧
    (run_loop_engine envCleanupFails).trace.count LoopEvent.LOOP_RESULT = 0 := by
  decide

/-- In a run that reaches the inner `try` (the region embedded by
`run_loop_engine`), `process_event(CLEANUP)` executes exactly once, after a
prefix that mentions neither finalization event; `process_event(LOOP_RESULT)`
executes exactly once, immediately after CLEANUP, iff CLEANUP processing
raised no error. -/
theorem run_reaches_finalization_trace {H ε α : Type} (env : EngineEnv H ε α) :
    ∃ p, LoopEvent.CLEANUP ∉ p ∧ LoopEvent.LOOP_RESULT ∉ p ∧
      (((run_loop_engine env).cleanupErr = none ∧
        (run_loop_engine env).trace = p ++ [LoopEvent.CLEANUP, LoopEvent.LOOP_RESULT]) ∨
       ((run_loop_engine env).cleanupErr ≠ none ∧
        (run_loop_engine env).trace = p ++ [LoopEvent.CLEANUP])) := by
  refine ⟨(innerRun env).1, ?_, ?_, ?_⟩
  · rcases innerRun_trace_cases env with h | h | h <;> rw [h] <;> decide
  · rcases innerRun_trace_cases env with h | h | h <;> rw [h] <;> decide
  · show (finalizeRun env (innerRun env).1 (innerRun env).2.1 (innerRun env).2.2).cleanupErr
        = none ∧
      (finalizeRun env (innerRun env).1 (innerRun env).2.1 (innerRun env).2.2).trace = _ ∨
      (finalizeRun env (innerRun env).1 (innerRun env).2.1 (innerRun env).2.2).cleanupErr
        ≠ none ∧
      (finalizeRun env (innerRun env).1 (innerRun env).2.1 (innerRun env).2.2).trace = _
    unfold finalizeRun
    cases hC : (process_event env.handlers env.reactor env.handlerRun
        (innerRun env).2.1 LoopEvent.CLEANUP).2 with
    | some eC => exact Or.inr (by simp [hC])
    | none =>
      cases hR : (process_event env.handlers env.reactor env.handlerRun
          (process_event env.handlers env.reactor env.handlerRun
            (innerRun env).2.1 LoopEvent.CLEANUP).1 LoopEvent.LOOP_RESULT).2 with
      | some eR => exact Or.inl (by simp [hC, hR])
      | none => exact Or.inl (by simp [hC, hR])

/-- C3 amended: if `control.setup_event_context()` — which sits before the
inner `try` and invokes the driver-settable event-reactor factory — raises,
the run skips finalization entirely: neither `process_event(CLEANUP)` nor
`process_event(LOOP_RESULT)` executes.  Otherwise `process_event(CLEANUP)`
executes exactly once regardless of how the run terminated, and
`process_event(LOOP_RESULT)` executes exactly once, immediately after
CLEANUP, provided CLEANUP processing raises no error; if CLEANUP processing
raises, LOOP_RESULT is skipped. -/
theorem c3_amended_finalization_trace {H ε α : Type}
    (setupEventContext : Except ε Unit) (env : EngineEnv H ε α) :
    (∀ e, setupEventContext = Except.error e →
      (run_loop_engine_full setupEventContext env).trace = [] ∧
      (run_loop_engine_full setupEventContext env).trace.count LoopEvent.CLEANUP = 0 ∧
      (run_loop_engine_full setupEventContext env).trace.count LoopEvent.LOOP_RESULT = 0) ∧
    (setupEventContext = Except.ok () →
      ∃ p, LoopEvent.CLEANUP ∉ p ∧ LoopEvent.LOOP_RESULT ∉ p ∧
        (((run_loop_engine_full setupEventContext env).cleanupErr = none ∧
          (run_loop_engine_full setupEventContext env).trace
            = p ++ [LoopEvent.CLEANUP, LoopEvent.LOOP_RESULT]) ∨
         ((run_loop_engine_full setupEventContext env).cleanupErr ≠ none ∧
          (run_loop_engine_full setupEventContext env).trace
            = p ++ [LoopEvent.CLEANUP]))) := by
  constructor
  · intro e he
    subst he
    exact ⟨rfl, rfl, rfl⟩
  · intro he
    subst he
    exact run_reaches_finalization_trace env

/-- C2 counterexample: in a run whose only handler is a failing LOOP_RESULT
handler, the run reaches finalization, the LOOP_RESULT handler fails, and
`loop_result` is left at the PENDING_RESULT sentinel — not the NO_RESULT
sentinel the claim asserts (which the code never assigns). -/
theorem c2_counterexample_result_handler_failure :
    (run_loop_engine envResultFails).resultErr
      = some (EventError.eventHandlerError LoopEvent.LOOP_RESULT ()) ∧
    (run_loop_engine envResultFails).loop_result = LoopResultVal.pendingResult ∧
    LoopResultVal.pendingResult ≠ (LoopResultVal.noResult : LoopResultVal Nat) := by
  decide

/-- C2 amended: `loop_result` is never the NO_RESULT sentinel; if CLEANUP
or LOOP_RESULT processing fails during finalization it remains
PENDING_RESULT; otherwise it equals the event StepSlot's last recorded
content — in particular the LOOP_RESULT handler's return value whenever
that handler is registered and the reactor and the handler succeed. -/
theorem c2_amended_loop_result {H ε α : Type} (env : EngineEnv H ε α) :
    (run_loop_engine env).loop_result ≠ LoopResultVal.noResult ∧
    ((run_loop_engine env).cleanupErr ≠ none ∨ (run_loop_engine env).resultErr ≠ none →
      (run_loop_engine env).loop_result = LoopResultVal.pendingResult) ∧
    ((run_loop_engine env).cleanupErr = none ∧ (run_loop_engine env).resultErr = none →
      (run_loop_engine env).loop_result = slotToVal (run_loop_engine env).finalSlot) ∧
    (∀ h v, (run_loop_engine env).cleanupErr = none →
      dictGet env.handlers LoopEvent.LOOP_RESULT = some h →
      env.reactor LoopEvent.LOOP_RESULT = Except.ok () →
      env.handlerRun h = Except.ok v →
      (run_loop_engine env).loop_result = LoopResultVal.value v) := by
  have hshow : (run_loop_engine env).loop_result
      = (finalizeRun env (innerRun env).1 (innerRun env).2.1 (innerRun env).2.2).loopRes :=
    rfl
  have hclean : (run_loop_engine env).cleanupErr
      = (finalizeRun env (innerRun env).1 (innerRun env).2.1 (innerRun env).2.2).cleanupErr :=
    rfl
  have hres : (run_loop_engine env).resultErr
      = (finalizeRun env (innerRun env).1 (innerRun env).2.1 (innerRun env).2.2).resultErr :=
    rfl
  have hslot : (run_loop_engine env).finalSlot
      = (finalizeRun env (innerRun env).1 (innerRun env).2.1 (innerRun env).2.2).slot :=
    rfl
  rw [hshow, hclean, hres, hslot]
  unfold finalizeRun
  cases hC : (process_event env.handlers env.reactor env.handlerRun
      (innerRun env).2.1 LoopEvent.CLEANUP).2 with
  | some eC =>
    refine ⟨by simp [hC], by simp [hC], by simp [hC], ?_⟩
    intro h v hnone
    simp [hC] at hnone
  | none =>
    cases hR : (process_event env.handlers env.reactor env.handlerRun
        (process_event env.handlers env.reactor env.handlerRun
          (innerRun env).2.1 LoopEvent.CLEANUP).1 LoopEvent.LOOP_RESULT).2 with
    | some eR =>
      refine ⟨by simp [hC, hR], by simp [hC, hR], by simp [hC, hR], ?_⟩
      intro h v _ hget hreact hrun
      have : (process_event env.handlers env.reactor env.handlerRun
          (process_event env.handlers env.reactor env.handlerRun
            (innerRun env).2.1 LoopEvent.CLEANUP).1 LoopEvent.LOOP_RESULT).2 = none := by
        simp [process_event, hget, hreact, hrun]
      rw [hR] at this
      exact absurd this (by simp)
    | none =>
      refine ⟨?_, by simp [hC, hR], by simp [hC, hR], ?_⟩
      · simp only [hC, hR]
        unfold slotToVal
        cases ((process_event env.handlers env.reactor env.handlerRun
            (process_event env.handlers env.reactor env.handlerRun
              (innerRun env).2.1 LoopEvent.CLEANUP).1 LoopEvent.LOOP_RESULT).1).prev_result
          <;> simp
      · intro h v _ hget hreact hrun
        have hpr : process_event env.handlers env.reactor env.handlerRun
            (process_event env.handlers env.reactor env.handlerRun
              (innerRun env).2.1 LoopEvent.CLEANUP).1 LoopEvent.LOOP_RESULT
            = ({ prev_proc := LoopEvent.LOOP_RESULT, prev_result := some v }, none) := by
          simp [process_event, hget, hreact, hrun]
        simp [hC, hR, hpr, slotToVal]

/-- Witness for C2 amended: the run whose LOOP_RESULT handler returns 42
records `loop_result = 42`. -/
theorem c2_amended_loop_result_witness :
    (run_loop_engine envResultOk).loop_result = LoopResultVal.value 42 :=
  (c2_amended_loop_result envResultOk).2.2.2 () 42 (by decide) (by decide) rfl rfl

/-- C7 counterexample: the circuit raises (a CircuitError propagates) and
the CLEANUP handler then fails during finalization; the CLEANUP failure
replaces the original error: the exception re-raised to the driver is the
CLEANUP `EventHandlerError`, `handler_error` is the slot that gets
recorded, and `circuit_error` — the original error's matching slot — is
left unset. -/
theorem c7_counterexample_cleanup_replaces_original :
    (run_loop_engine envCircuitAndCleanupFail).raised
      = some (EngineError.fromEvent
          (EventError.eventHandlerError LoopEvent.CLEANUP ())) ∧
    (run_loop_engine envCircuitAndCleanupFail).circuit_error = none ∧
    (run_loop_engine envCircuitAndCleanupFail).handler_error
      = some (EventError.eventHandlerError LoopEvent.CLEANUP ()) := by
  decide

/-- C7 amended: whenever CLEANUP processing fails during finalization, the
CLEANUP failure is the exception re-raised to the driver and the error
recorded (in the reactor- or handler-error slot, by its kind), while the
original propagating error is discarded: `circuit_error` stays unset and
`loop_result` stays PENDING_RESULT. -/
theorem c7_amended_cleanup_failure_replaces {H ε α : Type}
    (env : EngineEnv H ε α) (e : EventError ε)
    (hc : (run_loop_engine env).cleanupErr = some e) :
    (run_loop_engine env).raised = some (EngineError.fromEvent e) ∧
    (run_loop_engine env).circuit_error = none ∧
    ((run_loop_engine env).event_reactor_error = some e ∨
     (run_loop_engine env).handler_error = some e) ∧
    (run_loop_engine env).loop_result = LoopResultVal.pendingResult := by
  have hclean : (run_loop_engine env).cleanupErr
      = (finalizeRun env (innerRun env).1 (innerRun env).2.1 (innerRun env).2.2).cleanupErr :=
    rfl
  rw [hclean] at hc
  have hraised : (run_loop_engine env).raised
      = (finalizeRun env (innerRun env).1 (innerRun env).2.1 (innerRun env).2.2).pending :=
    rfl
  have hlr : (run_loop_engine env).loop_result
      = (finalizeRun env (innerRun env).1 (innerRun env).2.1 (innerRun env).2.2).loopRes :=
    rfl
  cases hC : (process_event env.handlers env.reactor env.handlerRun
      (innerRun env).2.1 LoopEvent.CLEANUP).2 with
  | none =>
    have h0 : (finalizeRun env (innerRun env).1 (innerRun env).2.1
        (innerRun env).2.2).cleanupErr = none := by
      unfold finalizeRun
      cases hR : (process_event env.handlers env.reactor env.handlerRun
          (process_event env.handlers env.reactor env.handlerRun
            (innerRun env).2.1 LoopEvent.CLEANUP).1 LoopEvent.LOOP_RESULT).2 <;>
        simp [hC, hR]
    rw [h0] at hc
    exact absurd hc (by simp)
  | some eC =>
    have h1 : (finalizeRun env (innerRun env).1 (innerRun env).2.1
        (innerRun env).2.2).cleanupErr = some eC := by
      unfold finalizeRun
      simp [hC]
    rw [h1] at hc
    rw [Option.some_inj] at hc
    have hpend : (finalizeRun env (innerRun env).1 (innerRun env).2.1 (innerRun env).2.2).pending
        = some (EngineError.fromEvent e) := by
      unfold finalizeRun
      simp [hC, hc]
    have hlr2 : (finalizeRun env (innerRun env).1 (innerRun env).2.1 (innerRun env).2.2).loopRes
        = LoopResultVal.pendingResult := by
      unfold finalizeRun
      simp [hC]
    refine ⟨by rw [hraised, hpend], ?_, ?_, by rw [hlr, hlr2]⟩
    · show (match (finalizeRun env (innerRun env).1 (innerRun env).2.1 (innerRun env).2.2).pending
            with
          | none => ((none : Option ε), (none : Option (EventError ε)),
                     (none : Option (EventError ε)))
          | some e => classifyErr e).1 = none
      rw [hpend]
      cases e <;> simp [classifyErr]
    · show (match (finalizeRun env (innerRun env).1 (innerRun env).2.1 (innerRun env).2.2).pending
            with
          | none => ((none : Option ε), (none : Option (EventError ε)),
                     (none : Option (EventError ε)))
          | some e => classifyErr e).2.1 = some e ∨
        (match (finalizeRun env (innerRun env).1 (innerRun env).2.1 (innerRun env).2.2).pending
            with
          | none => ((none : Option ε), (none : Option (EventError ε)),
                     (none : Option (EventError ε)))
          | some e => classifyErr e).2.2 = some e
      rw [hpend]
      cases e <;> simp [classifyErr]

/-- Witness for C7 amended, at the run whose circuit raises and whose
CLEANUP handler fails. -/
theorem c7_amended_cleanup_failure_replaces_witness :
    (run_loop_engine envCircuitAndCleanupFail).raised
      = some (EngineError.fromEvent
          (EventError.eventHandlerError LoopEvent.CLEANUP ())) ∧
    (run_loop_engine envCircuitAndCleanupFail).circuit_error = none ∧
    ((run_loop_engine envCircuitAndCleanupFail).event_reactor_error
        = some (EventError.eventHandlerError LoopEvent.CLEANUP ()) ∨
     (run_loop_engine envCircuitAndCleanupFail).handler_error
        = some (EventError.eventHandlerError LoopEvent.CLEANUP ())) ∧
    (run_loop_engine envCircuitAndCleanupFail).loop_result
      = LoopResultVal.pendingResult :=
  c7_amended_cleanup_failure_replaces envCircuitAndCleanupFail
    (EventError.eventHandlerError LoopEvent.CLEANUP ()) (by decide)

/-- Witness for C3 amended, at the run with no handlers registered: once
with a failing `setup_event_context` (finalization skipped) and once with a
succeeding one. -/
theorem c3_amended_finalization_trace_witness :
    ((run_loop_engine_full (Except.error ()) envPlain).trace = [] ∧
     (run_loop_engine_full (Except.error ()) envPlain).trace.count
       LoopEvent.CLEANUP = 0 ∧
     (run_loop_engine_full (Except.error ()) envPlain).trace.count
       LoopEvent.LOOP_RESULT = 0) ∧
    (∃ p, LoopEvent.CLEANUP ∉ p ∧ LoopEvent.LOOP_RESULT ∉ p ∧
      (((run_loop_engine_full (Except.ok ()) envPlain).cleanupErr = none ∧
        (run_loop_engine_full (Except.ok ()) envPlain).trace
          = p ++ [LoopEvent.CLEANUP, LoopEvent.LOOP_RESULT]) ∨
       ((run_loop_engine_full (Except.ok ()) envPlain).cleanupErr ≠ none ∧
        (run_loop_engine_full (Except.ok ()) envPlain).trace
          = p ++ [LoopEvent.CLEANUP]))) :=
  ⟨(c3_amended_finalization_trace (Except.error ()) envPlain).1 () rfl,
   (c3_amended_finalization_trace (Except.ok ()) envPlain).2 rfl⟩

/-- Witness for C8 amended, in LOAD with the initial controller state. -/
theorem c8_amended_control_state_gating_witness :
    task_control_stop .ACTIVE = Except.ok () ∧
    task_control_stop .LOAD = Except.error StateErr.InvalidStateError ∧
    task_control_stop .TERMINATED = Except.error StateErr.TerminatedError ∧
    task_control_start .LOAD = Except.ok (LoopState.ACTIVE, some ()) ∧
    task_control_start .ACTIVE = Except.error StateErr.InvalidStateError ∧
    task_control_start .TERMINATED = Except.error StateErr.InvalidStateError ∧
    handle_pause .LOAD initIrq = (irq_request_pause initIrq, none) ∧
    handle_resume .LOAD initIrq = (irq_resume initIrq, none) ∧
    (handle_pause .LOAD initIrq).1.pause_requested = true ∧
    (handle_resume .LOAD initIrq).1.resume_event_scheduled = true :=
  c8_amended_control_state_gating .LOAD initIrq
